import Mathlib

/-!
Shallow embedding of the MongoDB sales-analytics scripts
(`mongodb_sales_operations.py` and `create_indexes.py`) and proofs of the
specification's claims about them.

Modelling conventions:
* Python `str` values are `PyStr := List Char`, so every string operation is
  structurally recursive and kernel-evaluable.
* Python floats (the `Amount` column) are modelled as rationals `ℚ`;
  Python ints (the `Qty` column) as `Int`; datetimes as integer timestamps.
* A pandas cell is `Option v`: `none` models a cell that is absent or NaN
  (the two cases `pd.notna` treats alike), `some v` a present value.
* External collaborators are parameters: `parse` models
  `dateutil.parser.parse` (`none` = the parser raises), `now` models
  `datetime.now()`, `ack` models the per-call acknowledged count of
  `insert_many`, and `attempt` models `collection.create_index`.
-/

namespace SalesOps

/-- Python `str` values, modelled as character lists. -/
abbrev PyStr := List Char

/-- Embed a Lean string literal as a `PyStr`. -/
def pys (s : String) : PyStr := s.data

/-- Python `str.strip()`: remove leading and trailing whitespace. -/
def pyStrip (s : PyStr) : PyStr :=
  ((s.dropWhile Char.isWhitespace).reverse.dropWhile Char.isWhitespace).reverse

/-- Python `str.upper()` (ASCII model). -/
def pyUpper (s : PyStr) : PyStr := s.map Char.toUpper

/-- Python `s.split(',')`. -/
def splitComma : PyStr → List PyStr
  | [] => [[]]
  | c :: cs =>
    if c = ',' then [] :: splitComma cs
    else
      match splitComma cs with
      | [] => [[c]]
      | t :: ts => (c :: t) :: ts

/-- The list comprehension on line 151 of `mongodb_sales_operations.py`:
`[p.strip() for p in promotions_str.split(',') if p.strip()]`. -/
def splitPromotions (s : PyStr) : List PyStr :=
  ((splitComma s).map pyStrip).filter fun p => decide (p ≠ [])

/-- One CSV row, with one field per recognized source column.
`none` models a cell that is absent or NaN. -/
structure Row where
  orderId : Option PyStr
  date : Option PyStr
  status : Option PyStr
  shipCity : Option PyStr
  shipState : Option PyStr
  shipPostalCode : Option PyStr
  shipCountry : Option PyStr
  style : Option PyStr
  sku : Option PyStr
  category : Option PyStr
  size : Option PyStr
  asin : Option PyStr
  salesChannel : Option PyStr
  fulfilment : Option PyStr
  shipServiceLevel : Option PyStr
  qty : Option Int
  currency : Option PyStr
  amount : Option ℚ
  b2b : Option PyStr
  fulfilledBy : Option PyStr
  courierStatus : Option PyStr
  promotionIds : Option PyStr
deriving DecidableEq

/-- The `customer` (and `region`) nested document. -/
structure Customer where
  city : PyStr
  state : PyStr
  postal_code : PyStr
  country : PyStr
deriving DecidableEq

/-- The `product` nested document. -/
structure Product where
  style : PyStr
  sku : PyStr
  category : PyStr
  size : PyStr
  asin : PyStr
deriving DecidableEq

/-- The `sales` nested document. -/
structure Sales where
  channel : PyStr
  fulfilment : PyStr
  service_level : PyStr
  quantity : Int
  currency : PyStr
  amount : ℚ
  b2b : Bool
deriving DecidableEq

/-- The `fulfillment` nested document. -/
structure Shipping where
  fulfilled_by : PyStr
  courier_status : PyStr
deriving DecidableEq

/-- One order document as built by `transform_csv_to_json`. -/
structure Document where
  order_id : PyStr
  date : Int
  status : PyStr
  customer : Customer
  product : Product
  region : Customer
  sales : Sales
  fulfillment : Shipping
  promotions : List PyStr
deriving DecidableEq

/-- Model of `transform_csv_to_json`, per row (lines 89-153): build one nested
document from one CSV row.  `parse` models `dateutil.parser.parse`
(`none` = the parser raises) and `now` models `datetime.now()` at the
moment the row is transformed. -/
def transformRow (parse : PyStr → Option Int) (now : Int) (row : Row) : Document :=
  { order_id := row.orderId.getD (pys "")
    date :=
      match row.date with
      | none => now
      | some s => (parse s).getD now
    status := row.status.getD (pys "")
    customer :=
      { city := row.shipCity.getD (pys "")
        state := row.shipState.getD (pys "")
        postal_code := row.shipPostalCode.getD (pys "")
        country := row.shipCountry.getD (pys "") }
    product :=
      { style := row.style.getD (pys "")
        sku := row.sku.getD (pys "")
        category := row.category.getD (pys "")
        size := row.size.getD (pys "")
        asin := row.asin.getD (pys "") }
    region :=
      { city := row.shipCity.getD (pys "")
        state := row.shipState.getD (pys "")
        postal_code := row.shipPostalCode.getD (pys "")
        country := row.shipCountry.getD (pys "") }
    sales :=
      { channel := row.salesChannel.getD (pys "")
        fulfilment := row.fulfilment.getD (pys "")
        service_level := row.shipServiceLevel.getD (pys "")
        quantity := row.qty.getD 0
        currency := row.currency.getD (pys "")
        amount := row.amount.getD 0
        b2b := decide (pyUpper (row.b2b.getD (pys "FALSE")) = pys "TRUE") }
    fulfillment :=
      { fulfilled_by := row.fulfilledBy.getD (pys "")
        courier_status := row.courierStatus.getD (pys "") }
    promotions :=
      match row.promotionIds with
      | none => []
      | some s => if pyStrip s ≠ [] then splitPromotions s else [] }

/-- Model of `transform_csv_to_json` over the whole CSV: one document per row,
order preserved. -/
def transform_csv_to_json (parse : PyStr → Option Int) (now : Int)
    (rows : List Row) : List Document :=
  rows.map (transformRow parse now)

/-- Model of `query_orders_by_date_range` (lines 213-252): parse both bounds
(an unparseable bound raises, modelled as `none`), filter the collection
to the closed date interval, and compute the two client-side sums over
the result set.  Returns `(orders, total_amount, total_quantity)`. -/
def query_orders_by_date_range (parse : PyStr → Option Int)
    (docs : List Document) (startStr endStr : PyStr) :
    Option (List Document × ℚ × ℤ) :=
  match parse startStr, parse endStr with
  | some s, some e =>
    let orders := docs.filter fun d => decide (s ≤ d.date) && decide (d.date ≤ e)
    some (orders, (orders.map fun d => d.sales.amount).sum,
      (orders.map fun d => d.sales.quantity).sum)
  | _, _ => none

/-- The `$match` stage shared by the three aggregation pipelines:
`{"sales.amount": {"$gt": 0}}`. -/
def matchStage (docs : List Document) : List Document :=
  docs.filter fun d => decide (0 < d.sales.amount)

/-- The distinct group keys produced by a `$group` stage. -/
def groupKeys {κ : Type} [DecidableEq κ] (key : Document → κ)
    (docs : List Document) : List κ :=
  (docs.map key).dedup

/-- The documents falling into one `$group` bucket. -/
def groupOf {κ : Type} [DecidableEq κ] (key : Document → κ)
    (docs : List Document) (k : κ) : List Document :=
  docs.filter fun d => decide (key d = k)

/-- The accumulator `{"$sum": "$sales.amount"}` over one group. -/
def totalSalesOf (g : List Document) : ℚ := (g.map fun d => d.sales.amount).sum

/-- The accumulator `{"$sum": "$sales.quantity"}` over one group. -/
def totalQuantityOf (g : List Document) : ℤ := (g.map fun d => d.sales.quantity).sum

/-- The `{"$sort": {"total_sales": -1}}` stage: sort descending by
summed amount. -/
def sortDescBy {R : Type} (total : R → ℚ) (l : List R) : List R :=
  l.insertionSort fun a b => total b ≤ total a

/-- One result row of `aggregate_sales_by_region`. -/
structure RegionAgg where
  id : PyStr
  total_sales : ℚ
  order_count : ℕ
  total_quantity : ℤ
  avg_order_value : ℚ
deriving DecidableEq

/-- Model of `aggregate_sales_by_region` (lines 254-306): match on positive amount,
group by `region.state`, sort descending by `total_sales`, limit 10. -/
def aggregate_sales_by_region (docs : List Document) : List RegionAgg :=
  let m := matchStage docs
  (sortDescBy RegionAgg.total_sales
    ((groupKeys (fun d => d.region.state) m).map fun k =>
      let g := groupOf (fun d => d.region.state) m k
      { id := k
        total_sales := totalSalesOf g
        order_count := g.length
        total_quantity := totalQuantityOf g
        avg_order_value := totalSalesOf g / (g.length : ℚ) })).take 10

/-- One result row of `aggregate_sales_by_category` (after `$project`). -/
structure CategoryAgg where
  id : PyStr
  total_sales : ℚ
  order_count : ℕ
  total_quantity : ℤ
  avg_order_value : ℚ
  unique_product_count : ℕ
deriving DecidableEq

/-- Model of `aggregate_sales_by_category` (lines 308-369): match on positive
amount, group by `product.category` (with distinct-`sku` count), sort
descending by `total_sales`; no limit stage. -/
def aggregate_sales_by_category (docs : List Document) : List CategoryAgg :=
  let m := matchStage docs
  sortDescBy CategoryAgg.total_sales
    ((groupKeys (fun d => d.product.category) m).map fun k =>
      let g := groupOf (fun d => d.product.category) m k
      { id := k
        total_sales := totalSalesOf g
        order_count := g.length
        total_quantity := totalQuantityOf g
        avg_order_value := totalSalesOf g / (g.length : ℚ)
        unique_product_count := ((g.map fun d => d.product.sku).dedup).length })

/-- One result row of `aggregate_sales_by_region_and_category`; the
composite `_id` is the pair (state, category). -/
structure RegionCategoryAgg where
  id : PyStr × PyStr
  total_sales : ℚ
  order_count : ℕ
deriving DecidableEq

/-- Model of `aggregate_sales_by_region_and_category` (lines 371-418): match on
positive amount, group by the composite key (state, category), sort
descending by `total_sales`, limit 15. -/
def aggregate_sales_by_region_and_category (docs : List Document) :
    List RegionCategoryAgg :=
  let m := matchStage docs
  (sortDescBy RegionCategoryAgg.total_sales
    ((groupKeys (fun d => (d.region.state, d.product.category)) m).map fun k =>
      let g := groupOf (fun d => (d.region.state, d.product.category)) m k
      { id := k
        total_sales := totalSalesOf g
        order_count := g.length })).take 15

/-- Python `range(start, stop, step)`: its length. -/
def pyRangeLen (start stop step : Int) : ℕ :=
  if 0 < step then ((stop - start).toNat + (step.toNat - 1)) / step.toNat
  else ((start - stop).toNat + ((-step).toNat - 1)) / (-step).toNat

/-- Python `range(start, stop, step)`; `none` models the `ValueError`
raised when `step` is zero. -/
def pyRange (start stop step : Int) : Option (List Int) :=
  if step = 0 then none
  else some ((List.range (pyRangeLen start stop step)).map fun k : ℕ => start + step * (k : Int))

/-- The batches issued by `insert_orders` (lines 181-183):
`documents[i:i + batch_size]` for `i in range(0, len(documents), batch_size)`. -/
def insertBatches (docs : List Document) (batchSize : Int) :
    Option (List (List Document)) :=
  (pyRange 0 docs.length batchSize).map fun idxs =>
    idxs.map fun i => (docs.drop i.toNat).take batchSize.toNat

/-- Model of `insert_orders` (lines 158-188): one `insert_many` call per batch,
accumulating `len(result.inserted_ids)`; `ack` models the store's
acknowledged count for one call (`fun b => b.length` when no call fails). -/
def insert_orders (ack : List Document → ℕ) (docs : List Document)
    (batchSize : Int) : Option ℕ :=
  (insertBatches docs batchSize).map fun bs => (bs.map ack).sum

/-- The constant `pymongo.ASCENDING`. -/
def ASCENDING : Int := 1

/-- The constant `pymongo.DESCENDING`. -/
def DESCENDING : Int := -1

/-- The fixed index list of `create_indexes.py` (lines 16-23). -/
def indexSpecs : List (PyStr × Int) :=
  [(pys "date", ASCENDING), (pys "region.state", ASCENDING),
   (pys "product.category", ASCENDING), (pys "sales.amount", DESCENDING),
   (pys "status", ASCENDING), (pys "order_id", ASCENDING)]

/-- The entry appended to `created_indexes` on success (line 29). -/
def describeIndex (field : PyStr) (direction : Int) : PyStr :=
  field ++ pys " (" ++ (if direction = 1 then pys "ASC" else pys "DESC") ++ pys ")"

/-- The message printed when creating one index fails (line 32). -/
def errLog (field : PyStr) (e : PyStr) : PyStr :=
  pys "Error creating index on " ++ field ++ pys ": " ++ e

/-- The `create_index` loop of `create_indexes.py` (lines 25-32): each
pair is attempted independently; a failure is caught and logged and the
loop continues.  `attempt` models `collection.create_index`; the result
is (`created_indexes`, error log), each in loop order. -/
def create_indexes (attempt : PyStr → Int → Except PyStr PyStr) :
    List (PyStr × Int) → List PyStr × List PyStr
  | [] => ([], [])
  | (f, dir) :: rest =>
    let r := create_indexes attempt rest
    match attempt f dir with
    | Except.ok _ => (describeIndex f dir :: r.1, r.2)
    | Except.error e => (r.1, errLog f e :: r.2)

/-! ### Concrete inputs used by witnesses and counterexamples -/

/-- A row whose cells are all absent. -/
def emptyRow : Row :=
  { orderId := none, date := none, status := none, shipCity := none,
    shipState := none, shipPostalCode := none, shipCountry := none,
    style := none, sku := none, category := none, size := none, asin := none,
    salesChannel := none, fulfilment := none, shipServiceLevel := none,
    qty := none, currency := none, amount := none, b2b := none,
    fulfilledBy := none, courierStatus := none, promotionIds := none }

/-- A date parser recognizing exactly one string. -/
def parseW : PyStr → Option Int :=
  fun s => if s = pys "2022-04-01" then some 19083 else none

/-- A two-bound parser for the C6 witness. -/
def parseRangeW : PyStr → Option Int :=
  fun s => if s = pys "start" then some 10 else if s = pys "end" then some 20 else none

/-- A row with negative `Qty` and `Amount` cells, as CSV sales data can
contain (e.g. returns). -/
def rowNeg : Row := { emptyRow with qty := some (-3), amount := some (-2) }

/-- An index-creation oracle failing exactly on `region.state`. -/
def attemptW : PyStr → Int → Except PyStr PyStr :=
  fun f _ => if f = pys "region.state" then Except.error (pys "boom") else Except.ok f

/-- A concrete order document (state MH, amount 5). -/
def docW : Document :=
  { order_id := pys "405-1"
    date := 19083
    status := pys "Shipped"
    customer := { city := pys "Mumbai", state := pys "MH",
                  postal_code := pys "400001", country := pys "IN" }
    product := { style := pys "S1", sku := pys "SKU1", category := pys "Kurta",
                 size := pys "M", asin := pys "A1" }
    region := { city := pys "Mumbai", state := pys "MH",
                postal_code := pys "400001", country := pys "IN" }
    sales := { channel := pys "Amazon.in", fulfilment := pys "Amazon",
               service_level := pys "Expedited", quantity := 1,
               currency := pys "INR", amount := 5, b2b := false }
    fulfillment := { fulfilled_by := pys "Easy Ship", courier_status := pys "Shipped" }
    promotions := [] }

/-- A concrete order document (state KA, same amount 5). -/
def docV : Document :=
  { docW with
    order_id := pys "405-2"
    customer := { city := pys "Bengaluru", state := pys "KA",
                  postal_code := pys "560001", country := pys "IN" }
    region := { city := pys "Bengaluru", state := pys "KA",
                postal_code := pys "560001", country := pys "IN" } }

/-! ### C1: quantity and amount defaults -/

/-- C1: for every input row, `sales.quantity` is 0 when the `Qty` cell is
absent or NaN and otherwise equals the cell's integer value, and
`sales.amount` is 0 when the `Amount` cell is absent or NaN and otherwise
equals the cell's float value. -/
theorem c1_quantity_amount_defaults (parse : PyStr → Option Int) (now : Int)
    (row : Row) :
    ((row.qty = none → (transformRow parse now row).sales.quantity = 0) ∧
      ∀ v : Int, row.qty = some v → (transformRow parse now row).sales.quantity = v) ∧
    ((row.amount = none → (transformRow parse now row).sales.amount = 0) ∧
      ∀ v : ℚ, row.amount = some v → (transformRow parse now row).sales.amount = v) := by
  refine ⟨⟨fun h => ?_, fun v h => ?_⟩, fun h => ?_, fun v h => ?_⟩ <;>
    simp [transformRow, h]

/-- Witness for C1 at a concrete row with `Qty` present and `Amount`
absent. -/
theorem c1_witness :
    (transformRow (fun _ => none) 0 { emptyRow with qty := some 7 }).sales.quantity = 7 ∧
    (transformRow (fun _ => none) 0 { emptyRow with qty := some 7 }).sales.amount = 0 :=
  ⟨(c1_quantity_amount_defaults (fun _ => none) 0 _).1.2 7 rfl,
   (c1_quantity_amount_defaults (fun _ => none) 0 _).2.1 rfl⟩

/-! ### C2: date parsing with fallback to now -/

/-- C2: for every row whose `Date` cell is present, the document's `date`
equals the parsed value when the parser succeeds; when the parser fails
the transformation still produces a document and its `date` is `now`,
the wall-clock time at transformation. -/
theorem c2_date_parse_fallback (parse : PyStr → Option Int) (now : Int)
    (row : Row) (s : PyStr) (hs : row.date = some s) :
    (∀ d : Int, parse s = some d → (transformRow parse now row).date = d) ∧
    (parse s = none → (transformRow parse now row).date = now) := by
  constructor
  · intro d hd
    simp [transformRow, hs, hd]
  · intro hd
    simp [transformRow, hs, hd]

/-- Witness for C2: one row with a parseable date, one with an
unparseable one. -/
theorem c2_witness :
    (transformRow parseW 99 { emptyRow with date := some (pys "2022-04-01") }).date = 19083 ∧
    (transformRow parseW 99 { emptyRow with date := some (pys "junk") }).date = 99 :=
  ⟨(c2_date_parse_fallback parseW 99 _ _ rfl).1 19083 (by decide),
   (c2_date_parse_fallback parseW 99 _ _ rfl).2 (by decide)⟩

/-! ### C3: b2b parsing -/

/-- C3: `sales.b2b` is true if and only if the `B2B` cell is present and,
uppercased, equals the token `TRUE`; every other value — absent cell
included — yields false. -/
theorem c3_b2b_iff (parse : PyStr → Option Int) (now : Int) (row : Row) :
    (transformRow parse now row).sales.b2b = true ↔
      ∃ s : PyStr, row.b2b = some s ∧ pyUpper s = pys "TRUE" := by
  cases hb : row.b2b with
  | none => simp [transformRow, hb]; decide
  | some s => simp [transformRow, hb]

/-- Witness for C3: a lowercase `true` cell parses to `true`, and the
all-absent row parses to `false`. -/
theorem c3_witness :
    (transformRow (fun _ => none) 0 { emptyRow with b2b := some (pys "true") }).sales.b2b = true ∧
    ¬ (transformRow (fun _ => none) 0 emptyRow).sales.b2b = true :=
  ⟨(c3_b2b_iff (fun _ => none) 0 _).mpr ⟨pys "true", rfl, by decide⟩,
   fun h => by
    obtain ⟨s, hs, _⟩ := (c3_b2b_iff (fun _ => none) 0 emptyRow).mp h
    exact Option.noConfusion hs⟩

/-! ### C4: promotions splitting -/

/-- A whitespace character is not a comma. -/
lemma ne_comma_of_isWhitespace {c : Char} (h : c.isWhitespace) : c ≠ ',' := by
  intro hc
  subst hc
  exact absurd h (by decide)

/-- Splitting a comma-free string on commas yields the singleton of the
string. -/
lemma splitComma_of_no_comma : ∀ s : PyStr, ',' ∉ s → splitComma s = [s] := by
  intro s
  induction s with
  | nil => intro _; rfl
  | cons c cs ih =>
    intro h
    have hc : ¬ c = ',' := fun hc => h (hc ▸ List.mem_cons_self c cs)
    have hcs : ',' ∉ cs := fun hm => h (List.mem_cons_of_mem c hm)
    simp [splitComma, hc, ih hcs]

/-- If `s.strip()` is empty then every character of `s` is whitespace. -/
lemma isWhitespace_of_pyStrip_nil {s : PyStr} (h : pyStrip s = []) :
    ∀ c ∈ s, c.isWhitespace := by
  intro c hc
  have h1 : List.dropWhile Char.isWhitespace
      (List.dropWhile Char.isWhitespace s).reverse = [] := by
    have := congrArg List.reverse h
    simpa [pyStrip] using this
  have h2 : ∀ x ∈ (List.dropWhile Char.isWhitespace s).reverse,
      Char.isWhitespace x = true := List.dropWhile_eq_nil_iff.mp h1
  have h3 : ∀ x ∈ List.dropWhile Char.isWhitespace s,
      Char.isWhitespace x = true := by
    intro x hx
    exact h2 x (List.mem_reverse.mpr hx)
  rcases (List.mem_append.mp
      ((List.takeWhile_append_dropWhile Char.isWhitespace s).symm ▸ hc)) with h4 | h4
  · exact List.mem_takeWhile_imp h4
  · exact h3 c h4

/-- A blank (all-whitespace) cell also splits to the empty list. -/
lemma splitPromotions_of_pyStrip_nil {s : PyStr} (h : pyStrip s = []) :
    splitPromotions s = [] := by
  have hnc : ',' ∉ s := fun hm =>
    ne_comma_of_isWhitespace (isWhitespace_of_pyStrip_nil h ',' hm) rfl
  simp [splitPromotions, splitComma_of_no_comma s hnc, h]

/-- C4: for every input row, `promotions` equals the `promotion-ids`
cell split on commas with each token trimmed and empty tokens dropped; an
absent cell yields `[]`; and the spec's worked example holds. -/
theorem c4_promotions (parse : PyStr → Option Int) (now : Int) (row : Row) :
    ((row.promotionIds = none → (transformRow parse now row).promotions = []) ∧
      ∀ s : PyStr, row.promotionIds = some s →
        (transformRow parse now row).promotions = splitPromotions s) ∧
    splitPromotions (pys "P1, P2 ,,P3") = [pys "P1", pys "P2", pys "P3"] ∧
    splitPromotions (pys "") = [] := by
  refine ⟨⟨fun h => by simp [transformRow, h], fun s hs => ?_⟩, by decide, by decide⟩
  by_cases hstrip : pyStrip s = []
  · simp [transformRow, hs, hstrip, splitPromotions_of_pyStrip_nil hstrip]
  · simp [transformRow, hs, hstrip]

/-- Witness for C4 at a concrete row. -/
theorem c4_witness :
    (transformRow (fun _ => none) 0
      { emptyRow with promotionIds := some (pys " P1 ,P2") }).promotions =
      [pys "P1", pys "P2"] :=
  ((c4_promotions (fun _ => none) 0 _).1.2 _ rfl).trans (by decide)

/-! ### C6: date-range query -/

/-- C6: for parseable bounds, the query returns exactly the documents
whose date lies in the closed interval, and the reported totals are the
client-side sums of `sales.amount` and `sales.quantity` over exactly the
returned set. -/
theorem c6_date_range_query (parse : PyStr → Option Int) (docs : List Document)
    (startStr endStr : PyStr) (s e : Int)
    (hs : parse startStr = some s) (he : parse endStr = some e) :
    ∃ orders : List Document,
      query_orders_by_date_range parse docs startStr endStr =
        some (orders, (orders.map fun d => d.sales.amount).sum,
          (orders.map fun d => d.sales.quantity).sum) ∧
      ∀ d : Document, d ∈ orders ↔ d ∈ docs ∧ s ≤ d.date ∧ d.date ≤ e := by
  refine ⟨docs.filter fun d => decide (s ≤ d.date) && decide (d.date ≤ e), ?_, ?_⟩
  · simp [query_orders_by_date_range, hs, he]
  · intro d
    simp [List.mem_filter]

/-- Witness for C6 with concrete parseable bounds. -/
theorem c6_witness :
    ∃ orders : List Document,
      query_orders_by_date_range parseRangeW [] (pys "start") (pys "end") =
        some (orders, (orders.map fun d => d.sales.amount).sum,
          (orders.map fun d => d.sales.quantity).sum) ∧
      ∀ d : Document, d ∈ orders ↔ d ∈ ([] : List Document) ∧ 10 ≤ d.date ∧ d.date ≤ 20 :=
  c6_date_range_query parseRangeW [] (pys "start") (pys "end") 10 20 (by decide) (by decide)

/-! ### C8: nonnegativity of quantity and amount (corrected) -/

/-- Counterexample to C8 as stated: the transformer performs no
validation, so a negative source cell produces a document violating the
claimed `quantity ≥ 0 ∧ amount ≥ 0` invariant. -/
theorem c8_counterexample :
    ¬ (0 ≤ (transformRow (fun _ => none) 0 rowNeg).sales.quantity ∧
        0 ≤ (transformRow (fun _ => none) 0 rowNeg).sales.amount) := by
  decide

/-- C8 (amended): whenever the `Qty` and `Amount` cells are absent, NaN,
or nonnegative, the transformed document satisfies the data-model
constraints `sales.quantity ≥ 0` and `sales.amount ≥ 0`. -/
theorem c8_nonneg_of_nonneg_cells (parse : PyStr → Option Int) (now : Int)
    (row : Row) (hq : ∀ v : Int, row.qty = some v → 0 ≤ v)
    (ha : ∀ v : ℚ, row.amount = some v → 0 ≤ v) :
    0 ≤ (transformRow parse now row).sales.quantity ∧
    0 ≤ (transformRow parse now row).sales.amount := by
  constructor
  · cases h : row.qty with
    | none => simp [transformRow, h]
    | some v => simpa [transformRow, h] using hq v h
  · cases h : row.amount with
    | none => simp [transformRow, h]
    | some v => simpa [transformRow, h] using ha v h

/-- Witness for the amended C8 at a concrete nonnegative row. -/
theorem c8_witness :
    0 ≤ (transformRow (fun _ => none) 0
        { emptyRow with qty := some 4, amount := some 3 }).sales.quantity ∧
    0 ≤ (transformRow (fun _ => none) 0
        { emptyRow with qty := some 4, amount := some 3 }).sales.amount :=
  c8_nonneg_of_nonneg_cells (fun _ => none) 0 _
    (fun v hv => by simp at hv; omega)
    (fun v hv => by simp at hv; rw [← hv]; norm_num)

/-! ### C9: per-index failure tolerance -/

/-- C9: the index loop attempts every request independently: the created
list is exactly the successful requests (in order) and the error log
exactly the failed ones, so a failure is reported, later requests are
still attempted and created, and earlier successes are never rolled
back. -/
theorem c9_index_failures_tolerated (attempt : PyStr → Int → Except PyStr PyStr)
    (specs : List (PyStr × Int)) :
    ((create_indexes attempt specs).1 = specs.filterMap fun p =>
        match attempt p.1 p.2 with
        | Except.ok _ => some (describeIndex p.1 p.2)
        | Except.error _ => none) ∧
    ((create_indexes attempt specs).2 = specs.filterMap fun p =>
        match attempt p.1 p.2 with
        | Except.ok _ => none
        | Except.error e => some (errLog p.1 e)) ∧
    (∀ p ∈ specs, (∃ v, attempt p.1 p.2 = Except.ok v) →
      describeIndex p.1 p.2 ∈ (create_indexes attempt specs).1) ∧
    (∀ p ∈ specs, ∀ e, attempt p.1 p.2 = Except.error e →
      errLog p.1 e ∈ (create_indexes attempt specs).2) := by
  have hchar : ∀ l : List (PyStr × Int),
      (create_indexes attempt l).1 = (l.filterMap fun p =>
        match attempt p.1 p.2 with
        | Except.ok _ => some (describeIndex p.1 p.2)
        | Except.error _ => none) ∧
      (create_indexes attempt l).2 = (l.filterMap fun p =>
        match attempt p.1 p.2 with
        | Except.ok _ => none
        | Except.error e => some (errLog p.1 e)) := by
    intro l
    induction l with
    | nil => exact ⟨rfl, rfl⟩
    | cons p rest ih =>
      obtain ⟨f, dir⟩ := p
      cases h : attempt f dir <;>
        simp [create_indexes, h, ih.1, ih.2]
  refine ⟨(hchar specs).1, (hchar specs).2, ?_, ?_⟩
  · intro p hp ⟨v, hv⟩
    rw [(hchar specs).1]
    exact List.mem_filterMap.mpr ⟨p, hp, by rw [hv]⟩
  · intro p hp e he
    rw [(hchar specs).2]
    exact List.mem_filterMap.mpr ⟨p, hp, by rw [he]⟩

/-- Witness for C9 on the script's fixed index list with a failure on the
second request: the failure is logged and a later index is still
created. -/
theorem c9_witness :
    describeIndex (pys "sales.amount") DESCENDING ∈ (create_indexes attemptW indexSpecs).1 ∧
    errLog (pys "region.state") (pys "boom") ∈ (create_indexes attemptW indexSpecs).2 :=
  ⟨(c9_index_failures_tolerated attemptW indexSpecs).2.2.1
      (pys "sales.amount", DESCENDING) (by decide) ⟨pys "sales.amount", rfl⟩,
   (c9_index_failures_tolerated attemptW indexSpecs).2.2.2
      (pys "region.state", ASCENDING) (by decide) (pys "boom") rfl⟩

/-! ### C7 and C10: batched insert -/

/-- The contiguous chunks `docs[b*k : b*k + b]` for `k < ceil(n/b)`
reassemble to `docs`. -/
lemma chunks_flatten (b : ℕ) (hb : 1 ≤ b) :
    ∀ (n : ℕ) (docs : List Document), docs.length = n →
      ((List.range ((n + (b - 1)) / b)).map fun k =>
        (docs.drop (b * k)).take b).flatten = docs := by
  intro n
  induction n using Nat.strong_induction_on with
  | _ n ih =>
    intro docs hlen
    rcases docs with _ | ⟨d, ds⟩
    · simp at hlen
      subst hlen
      simp [Nat.div_eq_of_lt (by omega : b - 1 < b)]
    · have hn : 1 ≤ n := by
        simp at hlen
        omega
      have hcnt : (n + (b - 1)) / b = (n - b + (b - 1)) / b + 1 := by
        rcases le_or_lt b n with hbn | hnb
        · have harith : n + (b - 1) = (n - b + (b - 1)) + b := by omega
          rw [harith, Nat.add_div_right _ (by omega : 0 < b)]
        · have h0 : n - b = 0 := by omega
          have h1 : (n + (b - 1)) / b = 1 :=
            Nat.div_eq_of_lt_le (by omega) (by omega)
          have h2 : (0 + (b - 1)) / b = 0 := Nat.div_eq_of_lt (by omega)
          rw [h0, h1, h2]
      have hfun : (fun k => ((d :: ds).drop (b * Nat.succ k)).take b) =
          fun k => (((d :: ds).drop b).drop (b * k)).take b := by
        funext k
        rw [List.drop_drop, Nat.mul_succ, Nat.add_comm b (b * k)]
      have hih := ih (n - b) (by omega) ((d :: ds).drop b)
        (by rw [List.length_drop, hlen])
      rw [hcnt, List.range_succ_eq_map, List.map_cons, List.map_map,
        List.flatten_cons]
      have hcomp : ((fun k => ((d :: ds).drop (b * k)).take b) ∘ Nat.succ) =
          fun k => ((d :: ds).drop (b * Nat.succ k)).take b := rfl
      rw [hcomp, hfun, hih, Nat.mul_zero, List.drop_zero,
        List.take_append_drop]

/-- For a positive batch size, `insertBatches` is the chunk list in
closed form. -/
lemma insertBatches_pos (docs : List Document) (B : Int) (hB : 1 ≤ B) :
    insertBatches docs B =
      some ((List.range ((docs.length + (B.toNat - 1)) / B.toNat)).map fun k =>
        (docs.drop (B.toNat * k)).take B.toNat) := by
  have hBb : B = (B.toNat : Int) := by omega
  have hlen : pyRangeLen 0 docs.length B = (docs.length + (B.toNat - 1)) / B.toNat := by
    rw [pyRangeLen, if_pos (by omega : (0 : Int) < B)]
    norm_num
  rw [insertBatches, pyRange, if_neg (by omega : ¬ B = 0)]
  simp only [Option.map_some', Option.some.injEq, hlen, List.map_map]
  apply List.map_congr_left
  intro k _
  simp only [Function.comp_apply]
  rw [hBb, zero_add, ← Nat.cast_mul, Int.toNat_natCast, Int.toNat_natCast]

/-- C7: for every document list and batch size `B ≥ 1`, the insert
partitions the list into contiguous chunks of size at most `B`, issues
exactly `ceil(N/B)` bulk-insert calls, and — when every call acknowledges
its whole batch — returns exactly `N`. -/
theorem c7_batched_insert (ack : List Document → ℕ) (docs : List Document)
    (B : Int) (hB : 1 ≤ B)
    (hack : ∀ batch : List Document, ack batch = batch.length) :
    ∃ bs : List (List Document),
      insertBatches docs B = some bs ∧
      bs.flatten = docs ∧
      (∀ batch ∈ bs, batch.length ≤ B.toNat) ∧
      bs.length = (docs.length + (B.toNat - 1)) / B.toNat ∧
      insert_orders ack docs B = some docs.length := by
  have hb : 1 ≤ B.toNat := by omega
  refine ⟨_, insertBatches_pos docs B hB, ?_, ?_, ?_, ?_⟩
  · exact chunks_flatten B.toNat hb docs.length docs rfl
  · intro batch hbatch
    simp only [List.mem_map] at hbatch
    obtain ⟨k, _, rfl⟩ := hbatch
    exact List.length_take_le _ _
  · simp
  · rw [insert_orders, insertBatches_pos docs B hB, Option.map_some']
    congr 1
    have hmap : ∀ bs : List (List Document), bs.map ack = bs.map List.length := by
      intro bs
      apply List.map_congr_left
      intro batch _
      exact hack batch
    rw [hmap, ← List.length_flatten,
      chunks_flatten B.toNat hb docs.length docs rfl]

/-- C10: for a non-empty document list, batch size 0 raises (the
zero-step `range` error) before any insert, and any negative batch size
issues no bulk-insert call at all and returns 0. -/
theorem c10_nonpositive_batch (ack : List Document → ℕ) (docs : List Document)
    (hne : docs ≠ []) :
    insert_orders ack docs 0 = none ∧
    ∀ B : Int, B < 0 →
      insertBatches docs B = some [] ∧ insert_orders ack docs B = some 0 := by
  constructor
  · simp [insert_orders, insertBatches, pyRange]
  · intro B hB
    have hbs : insertBatches docs B = some [] := by
      have hlen : pyRangeLen 0 docs.length B = 0 := by
        rw [pyRangeLen, if_neg (by omega : ¬ (0 : Int) < B)]
        have h0 : ((0 : Int) - docs.length).toNat = 0 := by
          simp [Int.toNat_eq_zero]
        rw [h0, Nat.zero_add]
        exact Nat.div_eq_of_lt (by omega)
      rw [insertBatches, pyRange, if_neg (by omega : ¬ B = 0), hlen]
      simp
    exact ⟨hbs, by rw [insert_orders, hbs]; simp⟩

/-- Witness for C7: three documents inserted with batch size 2. -/
theorem c7_witness :
    ∃ bs : List (List Document),
      insertBatches [docW, docW, docW] 2 = some bs ∧
      bs.flatten = [docW, docW, docW] ∧
      (∀ batch ∈ bs, batch.length ≤ (2 : Int).toNat) ∧
      bs.length = ([docW, docW, docW].length + ((2 : Int).toNat - 1)) / (2 : Int).toNat ∧
      insert_orders List.length [docW, docW, docW] 2 = some [docW, docW, docW].length :=
  c7_batched_insert List.length [docW, docW, docW] 2 (by norm_num) (fun _ => rfl)

/-- Witness for C10 at a singleton list and batch size -2. -/
theorem c10_witness :
    insert_orders List.length [docW] 0 = none ∧
    insertBatches [docW] (-2) = some [] ∧
    insert_orders List.length [docW] (-2) = some 0 :=
  ⟨(c10_nonpositive_batch List.length [docW] (by simp)).1,
   ((c10_nonpositive_batch List.length [docW] (by simp)).2 (-2) (by norm_num)).1,
   ((c10_nonpositive_batch List.length [docW] (by simp)).2 (-2) (by norm_num)).2⟩

/-! ### C5: aggregation pipelines -/

/-- The `$sort` stage output is non-increasing in `total_sales`. -/
lemma sorted_sortDescBy {R : Type} (total : R → ℚ) (l : List R) :
    (sortDescBy total l).Sorted fun a b => total b ≤ total a := by
  haveI : IsTotal R fun a b => total b ≤ total a :=
    ⟨fun a b => le_total (total b) (total a)⟩
  haveI : IsTrans R fun a b => total b ≤ total a :=
    ⟨fun a b c h1 h2 => le_trans h2 h1⟩
  exact List.sorted_insertionSort _ _

/-- C5 (amended): each aggregation result draws its groups only from
documents with strictly positive `sales.amount`; results are sorted in
non-increasing (descending, ties allowed) order of summed amount; the
by-region result has at most 10 rows, the by-region-and-category result
at most 15, and the by-category result is unbounded — one row per
distinct category among the matching documents. -/
theorem c5_aggregation_shape (docs : List Document) :
    ((∀ r ∈ aggregate_sales_by_region docs,
        ∃ d ∈ docs, 0 < d.sales.amount ∧ d.region.state = r.id) ∧
      (aggregate_sales_by_region docs).Sorted
        (fun a b => b.total_sales ≤ a.total_sales) ∧
      (aggregate_sales_by_region docs).length ≤ 10) ∧
    ((∀ r ∈ aggregate_sales_by_region_and_category docs,
        ∃ d ∈ docs, 0 < d.sales.amount ∧
          d.region.state = r.id.1 ∧ d.product.category = r.id.2) ∧
      (aggregate_sales_by_region_and_category docs).Sorted
        (fun a b => b.total_sales ≤ a.total_sales) ∧
      (aggregate_sales_by_region_and_category docs).length ≤ 15) ∧
    ((aggregate_sales_by_category docs).Sorted
        (fun a b => b.total_sales ≤ a.total_sales) ∧
      (aggregate_sales_by_category docs).length =
        ((matchStage docs).map fun d => d.product.category).dedup.length) := by
  refine ⟨⟨?_, ?_, ?_⟩, ⟨?_, ?_, ?_⟩, ?_, ?_⟩
  · intro r hr
    have hr1 := List.take_subset _ _ hr
    rw [sortDescBy, List.mem_insertionSort, List.mem_map] at hr1
    obtain ⟨k, hk, rfl⟩ := hr1
    rw [groupKeys, List.mem_dedup, List.mem_map] at hk
    obtain ⟨d, hd, rfl⟩ := hk
    rw [matchStage, List.mem_filter, decide_eq_true_eq] at hd
    exact ⟨d, hd.1, hd.2, rfl⟩
  · exact List.Pairwise.sublist (List.take_sublist _ _)
      (sorted_sortDescBy RegionAgg.total_sales _)
  · exact List.length_take_le _ _
  · intro r hr
    have hr1 := List.take_subset _ _ hr
    rw [sortDescBy, List.mem_insertionSort, List.mem_map] at hr1
    obtain ⟨k, hk, rfl⟩ := hr1
    rw [groupKeys, List.mem_dedup, List.mem_map] at hk
    obtain ⟨d, hd, rfl⟩ := hk
    rw [matchStage, List.mem_filter, decide_eq_true_eq] at hd
    exact ⟨d, hd.1, hd.2, rfl, rfl⟩
  · exact List.Pairwise.sublist (List.take_sublist _ _)
      (sorted_sortDescBy RegionCategoryAgg.total_sales _)
  · exact List.length_take_le _ _
  · exact sorted_sortDescBy CategoryAgg.total_sales _
  · show (sortDescBy CategoryAgg.total_sales _).length = _
    rw [sortDescBy, List.length_insertionSort, List.length_map, groupKeys]

/-- Witness for C5: the length bounds at a concrete two-document
collection. -/
theorem c5_witness :
    (aggregate_sales_by_region [docW, docV]).length ≤ 10 ∧
    (aggregate_sales_by_region_and_category [docW, docV]).length ≤ 15 :=
  ⟨(c5_aggregation_shape [docW, docV]).1.2.2,
   (c5_aggregation_shape [docW, docV]).2.1.2.2⟩

/-- Counterexample to C5 as stated: two states with equal positive
totals produce a by-region result that is *not* strictly descending in
summed amount (ties are possible). -/
theorem c5_counterexample :
    ¬ (aggregate_sales_by_region [docW, docV]).Sorted
        (fun a b => b.total_sales < a.total_sales) := by
  intro h
  have hagg : aggregate_sales_by_region [docW, docV] =
      [{ id := pys "MH", total_sales := 5, order_count := 1,
         total_quantity := 1, avg_order_value := 5 / (1 : ℚ) },
       { id := pys "KA", total_sales := 5, order_count := 1,
         total_quantity := 1, avg_order_value := 5 / (1 : ℚ) }] := by
    simp +decide [aggregate_sales_by_region, matchStage, groupKeys, groupOf,
      totalSalesOf, totalQuantityOf, sortDescBy, docW, docV,
      List.dedup_cons_of_not_mem, List.filter]
  rw [hagg] at h
  have h5 : (5 : ℚ) < 5 := List.rel_of_sorted_cons h _ (List.mem_cons_self _ _)
  exact absurd h5 (by norm_num)

end SalesOps
